import Mathlib

/-!
Shallow embedding of the two model-construction units of the repository
`Intel-Convolutional_Neural_Networks`:

* `research/ssd_pytorch/models/model.py` (PyTorch SSD300 over a MobileNetV2
  backbone), embedded as a shape calculus on 4-D tensors: each `nn` layer
  becomes a partial function on shapes, `nn.Sequential` becomes a fold, and
  `Tensor.view` / `torch.cat` become partial shape operations.
* `research/action_recognition/models/lrcnn.py` (Keras LRCNN over MobileNetV2
  features), embedded as a list of layer descriptors with a per-sample
  shape semantics.

External framework components (torchvision's `mobilenet_v2` features, Keras'
`MobileNetV2` application) are not part of the repository; they are modelled
at the shape level from their documented behaviour, as noted on each such
definition.
-/

/-- Shape of a 4-D tensor `(N, C, H, W)` as used by the PyTorch model. -/
structure Shape4 where
  n : Nat
  c : Nat
  h : Nat
  w : Nat
deriving DecidableEq, Repr

/-- Shape of a 3-D tensor `(N, C, D)`, the result type of `bbox_view`. -/
structure Shape3 where
  n : Nat
  c : Nat
  d : Nat
deriving DecidableEq, Repr

/-- Layer descriptors for the `nn` layers instantiated in `model.py`:
`nn.Conv2d(inCh, outCh, kernel_size=k, padding=p, stride=s, bias=b)`
(square kernels only, as in the source), `nn.BatchNorm2d(ch)`, and
`nn.ReLU`. -/
inductive Layer where
  | conv2d (inCh outCh kernel padding stride : Nat) (bias : Bool)
  | batchNorm2d (ch : Nat)
  | relu
deriving DecidableEq, Repr

/-- Shape semantics of one layer: `Conv2d` requires the input channel count
to match and the padded input to be at least the kernel size, and maps the
spatial sizes by the standard `(h + 2p - k) / s + 1` formula; `BatchNorm2d`
requires its channel count and preserves the shape; `ReLU` preserves the
shape. -/
def Layer.apply : Layer → Shape4 → Option Shape4
  | .conv2d inCh outCh k p s _, ⟨n, c, h, w⟩ =>
      if c = inCh ∧ k ≤ h + 2 * p ∧ k ≤ w + 2 * p ∧ 0 < s then
        some ⟨n, outCh, (h + 2 * p - k) / s + 1, (w + 2 * p - k) / s + 1⟩
      else
        none
  | .batchNorm2d ch, ⟨n, c, h, w⟩ =>
      if c = ch then some ⟨n, c, h, w⟩ else none
  | .relu, s => some s

/-- Channel-only semantics of one layer: what channel count it consumes and
produces, ignoring spatial sizes. -/
def Layer.chanStep : Layer → Nat → Option Nat
  | .conv2d inCh outCh _ _ _ _, c => if c = inCh then some outCh else none
  | .batchNorm2d ch, c => if c = ch then some c else none
  | .relu, c => some c

/-- Dimensions of the trainable parameters of one layer, in the order
`module.parameters()` yields them: a `Conv2d` weight is 4-dimensional and
its bias (when present) 1-dimensional; `BatchNorm2d` has a 1-dimensional
weight and a 1-dimensional bias. -/
def Layer.paramDims : Layer → List Nat
  | .conv2d _ _ _ _ _ b => if b then [4, 1] else [4]
  | .batchNorm2d _ => [1, 1]
  | .relu => []

/-- The kernel size, padding and stride of a layer when it is a
convolution. -/
def Layer.convKPS : Layer → Option (Nat × Nat × Nat)
  | .conv2d _ _ k p s _ => some (k, p, s)
  | _ => none

/-- Whether a layer is a convolution. -/
def Layer.isConv : Layer → Bool
  | .conv2d _ _ _ _ _ _ => true
  | _ => false

/-- The last convolution of a block (an `nn.Sequential` ends in
`BatchNorm2d` and `ReLU`, so "the convolution a block ends in" is its last
`Conv2d` layer). -/
def lastConv (block : List Layer) : Option Layer :=
  (block.filter Layer.isConv).getLast?

/-- Shape semantics of `nn.Sequential`: apply the layers in order,
propagating failure. -/
def runLayers : List Layer → Shape4 → Option Shape4
  | [], s => some s
  | l :: ls, s => (l.apply s).bind (runLayers ls)

/-- Channel semantics of `nn.Sequential`. -/
def chanRun : List Layer → Nat → Option Nat
  | [], c => some c
  | l :: ls, c => (l.chanStep c).bind (chanRun ls)

/-- The loop of `SSD300.forward`: `detection_feed = [x]` followed by
`for layer in self.feature_blocks: x = layer(x); detection_feed.append(x)`.
Returns the list of feature-map shapes fed to the detection heads. -/
def runBlocks : List (List Layer) → Shape4 → Option (List Shape4)
  | [], x => some [x]
  | b :: bs, x =>
      (runLayers b x).bind fun y =>
        (runBlocks bs y).map fun rest => x :: rest

/-- Shape semantics of `t.view(n, c, -1)` on a 4-D tensor `t`: the element
count must be positive and divisible by `n * c`; the inferred third
dimension is `numel / (n * c)`. -/
def view3 (s : Shape4) (n c : Nat) : Option Shape3 :=
  if 0 < n * c ∧ n * c ∣ s.n * s.c * s.h * s.w then
    some ⟨n, c, s.n * s.c * s.h * s.w / (n * c)⟩
  else
    none

/-- Shape semantics of `torch.cat(ts, 2)`: all shapes must agree on
dimensions 0 and 1; dimension 2 is summed in order. -/
def cat2Step (acc t : Shape3) : Option Shape3 :=
  if acc.n = t.n ∧ acc.c = t.c then some ⟨acc.n, acc.c, acc.d + t.d⟩ else none

def cat2 : List Shape3 → Option Shape3
  | [] => none
  | s :: rest => rest.foldlM cat2Step s

/-- The list comprehension of `SSD300.bbox_view`: for each
`(s, l, c) in zip(src, loc, conf)` (Python `zip` stops at the shortest
list), compute `l(s).view(s.shape[0], 4, -1)` and
`c(s).view(s.shape[0], num_classes, -1)`. -/
def bboxPairs (numClasses : Nat) :
    List Shape4 → List Layer → List Layer → Option (List (Shape3 × Shape3))
  | s :: ss, l :: ls, c :: cs =>
      (l.apply s).bind fun lo =>
      (view3 lo s.n 4).bind fun lv =>
      (c.apply s).bind fun co =>
      (view3 co s.n numClasses).bind fun cv =>
      (bboxPairs numClasses ss ls cs).map fun rest => (lv, cv) :: rest
  | _, _, _ => some []

/-- Shape semantics of `SSD300.bbox_view`: build the per-scale pairs, then
concatenate the locs and the confs along dimension 2. -/
def bboxView (numClasses : Nat) (src : List Shape4)
    (loc conf : List Layer) : Option (Shape3 × Shape3) :=
  (bboxPairs numClasses src loc conf).bind fun ret =>
  (cat2 (ret.map Prod.fst)).bind fun locs =>
  (cat2 (ret.map Prod.snd)).map fun confs => (locs, confs)

/-- Modelled from the documented behaviour of the external torchvision
backbone (not part of this repository): `mobilenet_v2(pretrained=True)`
truncated to `features[:7]` is an overall stride-8 feature extractor whose
first 7 blocks end in 32 channels, so on the SSD300 input shape
`(N, 3, 300, 300)` it produces `(N, 32, 38, 38)` — the shape asserted by
the source comment "The output of feature_extractor should have shape of
(N, x, 38, 38)" together with `out_channels[0] = 32`. -/
def mobileNetTrunkShape (s : Shape4) : Option Shape4 :=
  if s.c = 3 ∧ s.h = 300 ∧ s.w = 300 then some ⟨s.n, 32, 38, 38⟩ else none

/-- Embedding of `SSDMobileNetV2FeatureExtractor`: the constructor stores
`is_training` and `num_layers` and builds `feature_extractor` (the truncated
MobileNetV2) and `out_channels` without reading either argument. -/
structure FeatureExtractor where
  is_training : Bool
  num_layers : Nat
  feature_extractor : Shape4 → Option Shape4
  out_channels : List Nat

/-- The constructor `SSDMobileNetV2FeatureExtractor.__init__`. -/
def mkFeatureExtractor (is_training : Bool := false) (num_layers : Nat := 6) :
    FeatureExtractor :=
  { is_training := is_training
    num_layers := num_layers
    feature_extractor := mobileNetTrunkShape
    out_channels := [32, 512, 512, 256, 256, 256] }

/-- `SSDMobileNetV2FeatureExtractor.forward`: it only applies
`self.feature_extractor`. -/
def FeatureExtractor.forward (e : FeatureExtractor) (s : Shape4) :
    Option Shape4 :=
  e.feature_extractor s

/-- One block of `SSD300._build_feature_layers`: a 1x1 convolution to
`channels`, batch norm, ReLU, then for the first three blocks (`i < 3`) a
3x3 stride-2 padding-1 convolution to `output_size`, otherwise a 3x3
stride-1 unpadded convolution to `output_size`, each followed by batch
norm and ReLU. All convolutions have `bias=False`. -/
def featureBlock (i inputSize outputSize channels : Nat) : List Layer :=
  if i < 3 then
    [ .conv2d inputSize channels 1 0 1 false
    , .batchNorm2d channels
    , .relu
    , .conv2d channels outputSize 3 1 2 false
    , .batchNorm2d outputSize
    , .relu ]
  else
    [ .conv2d inputSize channels 1 0 1 false
    , .batchNorm2d channels
    , .relu
    , .conv2d channels outputSize 3 0 1 false
    , .batchNorm2d outputSize
    , .relu ]

/-- `SSD300._build_feature_layers`: iterate over
`zip(input_size[:-1], input_size[1:], [256, 256, 128, 128, 128])` with the
block index deciding the stride-2 versus unpadded variant. -/
def buildFeatureLayers (inputSize : List Nat) : List (List Layer) :=
  (((inputSize.dropLast.zip inputSize.tail).zip
      [256, 256, 128, 128, 128]).enum).map
    fun p => featureBlock p.1 p.2.1.1 p.2.1.2 p.2.2

/-- Embedding of the `SSD300` module: the fields set by `__init__`. -/
structure SSD300 where
  input_shape : Nat × Nat × Nat
  num_classes : Nat
  feature_extractor : FeatureExtractor
  feature_blocks : List (List Layer)
  num_defaults : List Nat
  loc : List Layer
  conf : List Layer

/-- `SSD300.__init__`: store the backbone, build the extra feature blocks
from `out_channels`, and build one loc and one conf 3x3 padding-1
convolution per scale from `zip(num_defaults, out_channels)`, with
`num_defaults = [4, 6, 6, 6, 4, 4]`. -/
def mkSSD300 (backbone : FeatureExtractor := mkFeatureExtractor)
    (num_classes : Nat := 81) : SSD300 :=
  let nd : List Nat := [4, 6, 6, 6, 4, 4]
  { input_shape := (3, 300, 300)
    num_classes := num_classes
    feature_extractor := backbone
    feature_blocks := buildFeatureLayers backbone.out_channels
    num_defaults := nd
    loc := (nd.zip backbone.out_channels).map
      fun p => .conv2d p.2 (p.1 * 4) 3 1 1 true
    conf := (nd.zip backbone.out_channels).map
      fun p => .conv2d p.2 (p.1 * num_classes) 3 1 1 true }

/-- `SSD300.forward`: run the backbone, collect the detection feed through
the feature blocks, and shape the heads with `bbox_view`. -/
def SSD300.forward (m : SSD300) (s : Shape4) : Option (Shape3 × Shape3) :=
  (m.feature_extractor.forward s).bind fun x =>
  (runBlocks m.feature_blocks x).bind fun feed =>
  bboxView m.num_classes feed m.loc m.conf

/-- The `out_channels` value of the MobileNetV2 feature extractor. -/
def ssdOutChannels : List Nat := [32, 512, 512, 256, 256, 256]

/-- The `num_defaults` value set by `SSD300.__init__`. -/
def ssdNumDefaults : List Nat := [4, 6, 6, 6, 4, 4]

/-- The detection-feed shapes of `SSD300.forward` on a batch of `N` images:
the backbone output followed by the five feature-block outputs. -/
def feedList (N : Nat) : List Shape4 :=
  [ ⟨N, 32, 38, 38⟩, ⟨N, 512, 19, 19⟩, ⟨N, 512, 10, 10⟩
  , ⟨N, 256, 5, 5⟩, ⟨N, 256, 3, 3⟩, ⟨N, 256, 1, 1⟩ ]

/-- The per-scale `(loc, conf)` view shapes produced by `bbox_view` on the
detection feed: scale `i` contributes `num_defaults[i] * H_i * W_i` boxes. -/
def pairsList (N nc : Nat) : List (Shape3 × Shape3) :=
  [ (⟨N, 4, 5776⟩, ⟨N, nc, 5776⟩)
  , (⟨N, 4, 2166⟩, ⟨N, nc, 2166⟩)
  , (⟨N, 4, 600⟩, ⟨N, nc, 600⟩)
  , (⟨N, 4, 150⟩, ⟨N, nc, 150⟩)
  , (⟨N, 4, 36⟩, ⟨N, nc, 36⟩)
  , (⟨N, 4, 4⟩, ⟨N, nc, 4⟩) ]

/-! Parameter-level model of `SSD300._init_weights`.  A parameter is
represented by its dimensionality together with a symbolic value; Xavier
uniform initialization is an arbitrary update of the value.  The method
iterates over the parameters of `feature_blocks`, `loc` and `conf` only,
and reinitializes exactly those of dimension greater than 1. -/

/-- A tensor parameter: its number of dimensions and a symbolic value. -/
structure ParamState where
  dim : Nat
  val : Nat
deriving DecidableEq, Repr

/-- The parameter lists of an `SSD300` module, grouped by the submodules
`__init__` creates. -/
structure SSDParams where
  backbone : List ParamState
  feature_blocks : List ParamState
  loc : List ParamState
  conf : List ParamState
deriving DecidableEq, Repr

/-- The body of the loop in `_init_weights`:
`if param.dim() > 1: nn.init.xavier_uniform_(param)`; `xavier` stands for
the (random) value produced by `nn.init.xavier_uniform_`. -/
def initParam (xavier : Nat → Nat) (p : ParamState) : ParamState :=
  if 1 < p.dim then ⟨p.dim, xavier p.val⟩ else p

/-- `SSD300._init_weights`: iterate over the parameters of
`[*self.feature_blocks, *self.loc, *self.conf]`, leaving every other field
— in particular the backbone `feature_extractor` — untouched. -/
def initWeights (xavier : Nat → Nat) (m : SSDParams) : SSDParams :=
  { m with
    feature_blocks := m.feature_blocks.map (initParam xavier)
    loc := m.loc.map (initParam xavier)
    conf := m.conf.map (initParam xavier) }

/-- Dimensions of all parameters of a block, in order. -/
def blockParamDims (b : List Layer) : List Nat :=
  (b.map Layer.paramDims).flatten

/-! Object-level model of Python default-argument evaluation for claim
C10.  In Python, the default expression
`backbone=SSDMobileNetV2FeatureExtractor()` of `SSD300.__init__` is
evaluated exactly once, when the `def` statement is executed during the
evaluation of the class body; every later call that omits `backbone`
receives that same object.  We model a heap of extractor objects addressed
by naturals, with an allocator, and an `SSD300` object holding the address
of its backbone. -/

/-- A heap of backbone-parameter values addressed by `Nat`, with an
allocation counter. -/
structure PyEnv where
  nextAddr : Nat
  heap : Nat → Nat

/-- Allocate a new object holding value `v`, returning its address. -/
def pyAlloc (v : Nat) (e : PyEnv) : Nat × PyEnv :=
  ( e.nextAddr
  , { nextAddr := e.nextAddr + 1
      heap := fun a => if a = e.nextAddr then v else e.heap a } )

/-- Overwrite the object at address `a` with value `v` (a weight update of
the extractor object stored there). -/
def pyWrite (e : PyEnv) (a v : Nat) : PyEnv :=
  { e with heap := fun b => if b = a then v else e.heap b }

/-- Evaluating the `SSD300` class definition: the default expression
`SSDMobileNetV2FeatureExtractor()` is evaluated once, allocating one
extractor object whose address is stored with the function as the default
for `backbone`. -/
def evalSSD300ClassDef (initialVal : Nat) (e : PyEnv) : Nat × PyEnv :=
  pyAlloc initialVal e

/-- An `SSD300` object reduced to what C10 needs: the reference stored in
`self.feature_extractor`. -/
structure SSD300Obj where
  backboneAddr : Nat
deriving DecidableEq, Repr

/-- A call `SSD300(backbone=...)` or `SSD300()`: an explicit argument is
used as given; an omitted one falls back to the address stored at
definition time. -/
def callSSD300 (defaultAddr : Nat) (backbone : Option Nat) : SSD300Obj :=
  ⟨backbone.getD defaultAddr⟩

/-- Reading the backbone parameters of a model dereferences its stored
address. -/
def readBackbone (e : PyEnv) (m : SSD300Obj) : Nat :=
  e.heap m.backboneAddr

/-! Embedding of `research/action_recognition/models/lrcnn.py`.  A Keras
layer is a descriptor with a per-sample output-shape semantics (Keras
`Sequential` shapes exclude the batch dimension); `keras.Sequential` is a
list of layers. -/

/-- The `weights` argument of `LRMobileNetV2`: `None` or a Python string
(either the literal `'imagenet'` or a file path). -/
inductive WeightsArg where
  | none
  | str (s : String)
deriving DecidableEq, Repr

/-- Keras layer descriptors for the layers `LRMobileNetV2` instantiates.
`timeDistributed` carries the wrapped model's per-frame shape function and
the declared `input_shape`; `lstm` and `gru` carry their unit count and
`return_sequences` flag; `dropout` carries its rate; `dense` carries its
unit count and activation name. -/
inductive KLayer where
  | timeDistributed (inner : List Nat → Option (List Nat))
      (input_shape : List Nat)
  | lstm (units : Nat) (return_sequences : Bool)
  | gru (units : Nat) (return_sequences : Bool)
  | dropout (rate : Rat)
  | dense (units : Nat) (activation : String)

/-- Per-sample shape semantics of one Keras layer.  `TimeDistributed`
applies the inner model to each timestep; an RNN layer on `(seq, d)`
returns `(seq, units)` with `return_sequences=True` and `(units,)`
without; `Dropout` preserves the shape; `Dense` replaces the last axis by
its unit count. -/
def KLayer.outShape : KLayer → List Nat → Option (List Nat)
  | .timeDistributed inner _, seq :: frame =>
      (inner frame).map fun f => seq :: f
  | .timeDistributed _ _, [] => Option.none
  | .lstm u rs, [seq, _] => some (if rs then [seq, u] else [u])
  | .lstm _ _, _ => Option.none
  | .gru u rs, [seq, _] => some (if rs then [seq, u] else [u])
  | .gru _ _, _ => Option.none
  | .dropout _, s => some s
  | .dense u _, s =>
      match s with
      | [] => Option.none
      | _ => some (s.dropLast ++ [u])

/-- Shape semantics of `keras.Sequential`: thread the per-sample shape
through the layers in order. -/
def runSequential : List KLayer → List Nat → Option (List Nat)
  | [], s => some s
  | l :: ls, s => (l.outShape s).bind (runSequential ls)

/-- Modelled from the documented behaviour of the external Keras
application (not part of this repository):
`MobileNetV2(frame_shape, include_top=False, pooling='avg')` ends in a
1280-channel feature map reduced by global average pooling, so its
per-frame output shape is `(1280,)`. -/
def mobileNetV2AvgShape : List Nat → Option (List Nat) :=
  fun _ => some [1280]

/-- The layer kind of a Keras layer, for comparing architectures: the
wrapped-backbone and dropout layers are compared by kind alone, recurrent
and dense layers together with their unit counts, flags and activation. -/
inductive KKind where
  | timeDistributedMobileNet
  | lstm (units : Nat) (return_sequences : Bool)
  | gru (units : Nat) (return_sequences : Bool)
  | dropoutLayer
  | dense (units : Nat) (activation : String)
deriving DecidableEq, Repr

/-- Forgetful map from layers to kinds. -/
def KLayer.kind : KLayer → KKind
  | .timeDistributed _ _ => .timeDistributedMobileNet
  | .lstm u rs => .lstm u rs
  | .gru u rs => .gru u rs
  | .dropout _ => .dropoutLayer
  | .dense u a => .dense u a

/-- A constructed Keras model: its layers, plus whether the construction
called `model.load_weights` (and with what argument). -/
structure KerasModel where
  layers : List KLayer
  loadCalled : Option WeightsArg

/-- Embedding of `LRMobileNetV2`: build the fixed `Sequential` stack, then
`if weights != 'imagenet': model.load_weights(weights)`. -/
def LRMobileNetV2 (seq_length : Nat := 16)
    (frame_shape : List Nat := [224, 224, 3]) (classes : Nat := 1000)
    (weights : WeightsArg := .str "imagenet") (dropout : Rat := 1 / 2) :
    KerasModel :=
  let layers : List KLayer :=
    [ .timeDistributed mobileNetV2AvgShape (seq_length :: frame_shape)
    , .lstm 1024 true
    , .dropout dropout
    , .gru 512 true
    , .dropout dropout
    , .gru 256 true
    , .dropout dropout
    , .gru 128 false
    , .dropout dropout
    , .dense classes "softmax" ]
  { layers := layers
    loadCalled :=
      if weights ≠ WeightsArg.str "imagenet" then some weights
      else Option.none }

/-! Theorems. -/

/-- Evaluating the detection-feed loop of `SSD300.forward` on the backbone
output for a batch of `N` images. -/
theorem runBlocks_eval (N : Nat) :
    runBlocks (buildFeatureLayers ssdOutChannels) ⟨N, 32, 38, 38⟩ =
      some (feedList N) := rfl

/-- Evaluation rule for `view3`: when the element count factors as
`(n * c) * k`, the inferred dimension is `k`. -/
theorem view3_of (N cc c H W k : Nat) (hc : 0 < N * c)
    (heq : N * cc * H * W = N * c * k) :
    view3 ⟨N, cc, H, W⟩ N c = some ⟨N, c, k⟩ := by
  unfold view3
  rw [if_pos ⟨hc, ⟨k, heq⟩⟩]
  exact congrArg some
    (by simp [Nat.div_eq_of_eq_mul_left hc (heq.trans (Nat.mul_comm _ _))])

/-- Evaluating the per-scale views of `bbox_view` on the detection feed. -/
theorem bboxPairs_eval (N nc : Nat) (hN : 0 < N) (hnc : 0 < nc) :
    bboxPairs nc (feedList N) (mkSSD300 mkFeatureExtractor nc).loc
      (mkSSD300 mkFeatureExtractor nc).conf = some (pairsList N nc) := by
  have h4 : 0 < N * 4 := by positivity
  have hnc4 : 0 < N * nc := Nat.mul_pos hN hnc
  have l0 := view3_of N 16 4 38 38 5776 h4 (by ring)
  have l1 := view3_of N 24 4 19 19 2166 h4 (by ring)
  have l2 := view3_of N 24 4 10 10 600 h4 (by ring)
  have l3 := view3_of N 24 4 5 5 150 h4 (by ring)
  have l4 := view3_of N 16 4 3 3 36 h4 (by ring)
  have l5 := view3_of N 16 4 1 1 4 h4 (by ring)
  have c0 := view3_of N (4 * nc) nc 38 38 5776 hnc4 (by ring)
  have c1 := view3_of N (6 * nc) nc 19 19 2166 hnc4 (by ring)
  have c2 := view3_of N (6 * nc) nc 10 10 600 hnc4 (by ring)
  have c3 := view3_of N (6 * nc) nc 5 5 150 hnc4 (by ring)
  have c4 := view3_of N (4 * nc) nc 3 3 36 hnc4 (by ring)
  have c5 := view3_of N (4 * nc) nc 1 1 4 hnc4 (by ring)
  simp [bboxPairs, feedList, mkSSD300, mkFeatureExtractor, Layer.apply,
    pairsList, l0, l1, l2, l3, l4, l5, c0, c1, c2, c3, c4, c5]

/-- C1: for every batch size `N >= 1` and every `num_classes >= 1`,
`SSD300(num_classes).forward` on an input of shape `(N, 3, 300, 300)`
returns `locs` of shape `(N, 4, 8732)` and `confs` of shape
`(N, num_classes, 8732)`, where `8732` is the sum over the six feature-map
scales `38, 19, 10, 5, 3, 1` of `num_defaults[i] * H_i * W_i` with
`num_defaults = [4, 6, 6, 6, 4, 4]`. -/
theorem C1_ssd300_forward_shapes (N nc : Nat) (hN : 1 ≤ N) (hnc : 1 ≤ nc) :
    (mkSSD300 mkFeatureExtractor nc).forward ⟨N, 3, 300, 300⟩ =
      some (⟨N, 4, 8732⟩, ⟨N, nc, 8732⟩) ∧
    8732 = ((ssdNumDefaults.zip
        [(38, 38), (19, 19), (10, 10), (5, 5), (3, 3), (1, 1)]).map
        (fun p => p.1 * p.2.1 * p.2.2)).sum := by
  constructor
  · have hpairs := bboxPairs_eval N nc hN hnc
    show bboxView nc (feedList N) (mkSSD300 mkFeatureExtractor nc).loc
        (mkSSD300 mkFeatureExtractor nc).conf = _
    unfold bboxView
    rw [hpairs]
    simp [pairsList, cat2, cat2Step, List.foldlM]
  · rfl

/-- Witness for C1 at `N = 2`, `num_classes = 81`. -/
theorem C1_ssd300_forward_shapes_witness :
    (mkSSD300 mkFeatureExtractor 81).forward ⟨2, 3, 300, 300⟩ =
      some (⟨2, 4, 8732⟩, ⟨2, 81, 8732⟩) ∧
    8732 = ((ssdNumDefaults.zip
        [(38, 38), (19, 19), (10, 10), (5, 5), (3, 3), (1, 1)]).map
        (fun p => p.1 * p.2.1 * p.2.2)).sum :=
  C1_ssd300_forward_shapes 2 81 (by decide) (by decide)

/-- C5: five extra feature blocks; blocks 0-2 end in a 3x3 stride-2
padding-1 convolution and blocks 3-4 in a 3x3 stride-1 unpadded one. -/
theorem C5_feature_blocks :
    (buildFeatureLayers ssdOutChannels).length = 5 ∧
    (buildFeatureLayers ssdOutChannels).length + 1 = ssdOutChannels.length ∧
    (∀ i, i < 3 →
      (lastConv ((buildFeatureLayers ssdOutChannels).getD i [])).bind
        Layer.convKPS = some (3, 1, 2)) ∧
    (∀ i, 3 ≤ i → i < 5 →
      (lastConv ((buildFeatureLayers ssdOutChannels).getD i [])).bind
        Layer.convKPS = some (3, 0, 1)) ∧
    (∀ ic oc n h w : Nat, ∀ b : Bool, 1 ≤ h → 1 ≤ w →
      Layer.apply (.conv2d ic oc 3 1 2 b) ⟨n, ic, h, w⟩ =
        some ⟨n, oc, (h + 1) / 2, (w + 1) / 2⟩) ∧
    (∀ ic oc n h w : Nat, ∀ b : Bool, 3 ≤ h → 3 ≤ w →
      Layer.apply (.conv2d ic oc 3 0 1 b) ⟨n, ic, h, w⟩ =
        some ⟨n, oc, h - 2, w - 2⟩) ∧
    (∀ N, runBlocks (buildFeatureLayers ssdOutChannels) ⟨N, 32, 38, 38⟩ =
      some (feedList N)) ∧
    (∀ N, (feedList N).map (fun s => (s.c, s.h, s.w)) =
      [ (32, 38, 38), (512, 19, 19), (512, 10, 10)
      , (256, 5, 5), (256, 3, 3), (256, 1, 1) ]) := by
  refine ⟨rfl, rfl, ?_, ?_, ?_, ?_, fun N => runBlocks_eval N, fun N => rfl⟩
  · intro i hi
    interval_cases i <;> rfl
  · intro i hi3 hi5
    interval_cases i <;> rfl
  · intro ic oc n h w b h1 w1
    simp only [Layer.apply]
    rw [if_pos ⟨trivial, by omega, by omega, by decide⟩]
    simp only [Option.some.injEq, Shape4.mk.injEq, true_and]
    omega
  · intro ic oc n h w b h3 w3
    simp only [Layer.apply]
    rw [if_pos ⟨trivial, by omega, by omega, by decide⟩]
    simp only [Option.some.injEq, Shape4.mk.injEq, true_and]
    omega

/-- Witness for C5: the stride-2 block ends are evaluated at block 0 and
the two convolution shape rules at the concrete sizes 38 and 5. -/
theorem C5_feature_blocks_witness :
    (lastConv ((buildFeatureLayers ssdOutChannels).getD 0 [])).bind
      Layer.convKPS = some (3, 1, 2) ∧
    (lastConv ((buildFeatureLayers ssdOutChannels).getD 4 [])).bind
      Layer.convKPS = some (3, 0, 1) ∧
    Layer.apply (.conv2d 256 512 3 1 2 false) ⟨1, 256, 38, 38⟩ =
      some ⟨1, 512, 19, 19⟩ ∧
    Layer.apply (.conv2d 128 256 3 0 1 false) ⟨1, 128, 5, 5⟩ =
      some ⟨1, 256, 3, 3⟩ := by
  refine ⟨C5_feature_blocks.2.2.1 0 (by decide),
    C5_feature_blocks.2.2.2.1 4 (by decide) (by decide),
    C5_feature_blocks.2.2.2.2.1 256 512 1 38 38 false (by decide) (by decide),
    C5_feature_blocks.2.2.2.2.2.1 128 256 1 5 5 false (by decide) (by decide)⟩

/-- C6: each feature block consumes `out_channels[i]` and produces
`out_channels[i+1]`; `loc[i]` and `conf[i]` consume `out_channels[i]`; the
detection-feed channel counts are exactly `out_channels`. -/
theorem C6_channel_compatibility (nc : Nat) :
    (∀ i, i < 5 →
      chanRun ((buildFeatureLayers ssdOutChannels).getD i [])
        (ssdOutChannels.getD i 0) = some (ssdOutChannels.getD (i + 1) 0)) ∧
    (∀ i, i < 6 →
      Layer.chanStep ((mkSSD300 mkFeatureExtractor nc).loc.getD i .relu)
        (ssdOutChannels.getD i 0) = some (ssdNumDefaults.getD i 0 * 4)) ∧
    (∀ i, i < 6 →
      Layer.chanStep ((mkSSD300 mkFeatureExtractor nc).conf.getD i .relu)
        (ssdOutChannels.getD i 0) = some (ssdNumDefaults.getD i 0 * nc)) ∧
    (∀ N, (feedList N).map Shape4.c = ssdOutChannels) := by
  refine ⟨?_, ?_, ?_, fun N => rfl⟩
  · intro i hi
    interval_cases i <;> rfl
  · intro i hi
    interval_cases i <;> rfl
  · intro i hi
    interval_cases i <;> rfl

/-- Witness for C6 at `num_classes = 81`, block and head 0. -/
theorem C6_channel_compatibility_witness :
    chanRun ((buildFeatureLayers ssdOutChannels).getD 0 []) 32 = some 512 ∧
    Layer.chanStep ((mkSSD300 mkFeatureExtractor 81).loc.getD 0 .relu) 32 =
      some 16 ∧
    Layer.chanStep ((mkSSD300 mkFeatureExtractor 81).conf.getD 0 .relu) 32 =
      some 324 := by
  refine ⟨(C6_channel_compatibility 81).1 0 (by decide),
    (C6_channel_compatibility 81).2.1 0 (by decide),
    (C6_channel_compatibility 81).2.2.1 0 (by decide)⟩

/-- C7: exactly one loc and one conf 3x3 padding-1 convolution per scale,
with `num_defaults[i] * 4` and `num_defaults[i] * num_classes` output
channels; such convolutions preserve spatial size; `bbox_view` reshapes
scale `i` to `(N, 4, nd_i * H_i * W_i)` and `(N, nc, nd_i * H_i * W_i)`
and concatenates along dimension 2 in scale order. -/
theorem C7_multiscale_heads (N nc : Nat) (hN : 1 ≤ N) (hnc : 1 ≤ nc) :
    (mkSSD300 mkFeatureExtractor nc).loc.length = 6 ∧
    (mkSSD300 mkFeatureExtractor nc).conf.length = 6 ∧
    (∀ i, i < 6 →
      (mkSSD300 mkFeatureExtractor nc).loc.getD i .relu =
        .conv2d (ssdOutChannels.getD i 0) (ssdNumDefaults.getD i 0 * 4)
          3 1 1 true) ∧
    (∀ i, i < 6 →
      (mkSSD300 mkFeatureExtractor nc).conf.getD i .relu =
        .conv2d (ssdOutChannels.getD i 0) (ssdNumDefaults.getD i 0 * nc)
          3 1 1 true) ∧
    (∀ ic oc n h w : Nat, ∀ b : Bool, 1 ≤ h → 1 ≤ w →
      Layer.apply (.conv2d ic oc 3 1 1 b) ⟨n, ic, h, w⟩ =
        some ⟨n, oc, h, w⟩) ∧
    bboxPairs nc (feedList N) (mkSSD300 mkFeatureExtractor nc).loc
      (mkSSD300 mkFeatureExtractor nc).conf = some (pairsList N nc) ∧
    pairsList N nc =
      (ssdNumDefaults.zip
        [(38, 38), (19, 19), (10, 10), (5, 5), (3, 3), (1, 1)]).map
        (fun p => (⟨N, 4, p.1 * (p.2.1 * p.2.2)⟩,
                   ⟨N, nc, p.1 * (p.2.1 * p.2.2)⟩)) ∧
    cat2 ((pairsList N nc).map Prod.fst) = some ⟨N, 4, 8732⟩ ∧
    cat2 ((pairsList N nc).map Prod.snd) = some ⟨N, nc, 8732⟩ := by
  refine ⟨rfl, rfl, ?_, ?_, ?_, bboxPairs_eval N nc hN hnc, rfl, ?_, ?_⟩
  · intro i hi
    interval_cases i <;> rfl
  · intro i hi
    interval_cases i <;> rfl
  · intro ic oc n h w b h1 w1
    simp only [Layer.apply]
    rw [if_pos ⟨trivial, by omega, by omega, by decide⟩]
    simp only [Option.some.injEq, Shape4.mk.injEq, true_and]
    omega
  · simp [pairsList, cat2, cat2Step, List.foldlM]
  · simp [pairsList, cat2, cat2Step, List.foldlM]

/-- Witness for C7 at `N = 1`, `num_classes = 81`. -/
theorem C7_multiscale_heads_witness :
    (mkSSD300 mkFeatureExtractor 81).loc.getD 0 .relu =
      Layer.conv2d 32 16 3 1 1 true ∧
    Layer.apply (.conv2d 32 16 3 1 1 true) ⟨1, 32, 38, 38⟩ =
      some ⟨1, 16, 38, 38⟩ ∧
    cat2 ((pairsList 1 81).map Prod.fst) = some ⟨1, 4, 8732⟩ := by
  refine ⟨(C7_multiscale_heads 1 81 (by decide) (by decide)).2.2.1 0
      (by decide),
    (C7_multiscale_heads 1 81 (by decide) (by decide)).2.2.2.2.1 32 16 1
      38 38 true (by decide) (by decide),
    (C7_multiscale_heads 1 81 (by decide) (by decide)).2.2.2.2.2.2.2.1⟩

/-- C8: `is_training` and `num_layers` are stored but never read: two
extractors differing only in them have the same forward function, the
SSD300 models built on them compute the same forward function, and the
number of detection scales is fixed at 6 by `out_channels`. -/
theorem C8_flags_unobservable (t1 t2 : Bool) (n1 n2 nc : Nat) (s : Shape4) :
    (mkFeatureExtractor t1 n1).forward s =
      (mkFeatureExtractor t2 n2).forward s ∧
    (mkSSD300 (mkFeatureExtractor t1 n1) nc).forward s =
      (mkSSD300 (mkFeatureExtractor t2 n2) nc).forward s ∧
    (mkFeatureExtractor t1 n1).out_channels.length = 6 ∧
    (mkFeatureExtractor t1 n1).is_training = t1 ∧
    (mkFeatureExtractor t1 n1).num_layers = n1 :=
  ⟨rfl, rfl, rfl, rfl, rfl⟩

/-- C9: `_init_weights` touches only `feature_blocks`, `loc` and `conf`,
reinitializes exactly the parameters of dimension greater than 1, and in
those submodules the parameters of dimension greater than 1 are exactly
the 4-dimensional convolution weights. -/
theorem C9_init_weights_frame (xavier : Nat → Nat) (m : SSDParams)
    (nc : Nat) :
    (initWeights xavier m).backbone = m.backbone ∧
    (initWeights xavier m).feature_blocks =
      m.feature_blocks.map (initParam xavier) ∧
    (initWeights xavier m).loc = m.loc.map (initParam xavier) ∧
    (initWeights xavier m).conf = m.conf.map (initParam xavier) ∧
    (∀ p : ParamState, p.dim ≤ 1 → initParam xavier p = p) ∧
    (∀ p : ParamState, 1 < p.dim →
      initParam xavier p = ⟨p.dim, xavier p.val⟩) ∧
    (∀ b ∈ buildFeatureLayers ssdOutChannels,
      blockParamDims b = [4, 1, 1, 4, 1, 1]) ∧
    (∀ l ∈ (mkSSD300 mkFeatureExtractor nc).loc,
      Layer.paramDims l = [4, 1]) ∧
    (∀ l ∈ (mkSSD300 mkFeatureExtractor nc).conf,
      Layer.paramDims l = [4, 1]) := by
  refine ⟨rfl, rfl, rfl, rfl, ?_, ?_, by decide, ?_, ?_⟩
  · intro p hp
    unfold initParam
    rw [if_neg (by omega)]
  · intro p hp
    unfold initParam
    rw [if_pos hp]
  · intro l hl
    fin_cases hl <;> rfl
  · intro l hl
    fin_cases hl <;> rfl

/-- Witness for C9 with the successor function as the reinitializer. -/
theorem C9_init_weights_frame_witness :
    (initWeights Nat.succ ⟨[⟨4, 7⟩], [⟨1, 3⟩], [], []⟩).backbone =
      [⟨4, 7⟩] ∧
    initParam Nat.succ ⟨1, 3⟩ = ⟨1, 3⟩ ∧
    initParam Nat.succ ⟨4, 7⟩ = ⟨4, 8⟩ ∧
    blockParamDims ((buildFeatureLayers ssdOutChannels).getD 0 []) =
      [4, 1, 1, 4, 1, 1] := by
  refine ⟨(C9_init_weights_frame Nat.succ ⟨[⟨4, 7⟩], [⟨1, 3⟩], [], []⟩ 81).1,
    (C9_init_weights_frame Nat.succ ⟨[⟨4, 7⟩], [⟨1, 3⟩], [], []⟩ 81).2.2.2.2.1
      ⟨1, 3⟩ (by decide),
    (C9_init_weights_frame Nat.succ ⟨[⟨4, 7⟩], [⟨1, 3⟩], [], []⟩
      81).2.2.2.2.2.1 ⟨4, 7⟩ (by decide),
    (C9_init_weights_frame Nat.succ ⟨[⟨4, 7⟩], [⟨1, 3⟩], [], []⟩
      81).2.2.2.2.2.2.1 _ (by decide)⟩

/-- C10: the default backbone is allocated once when the class definition
is evaluated; models constructed without an explicit backbone share it
(same address, updates through one are observed by the other), while an
explicit backbone argument is used as given. -/
theorem C10_default_backbone_shared (e0 e : PyEnv) (v w : Nat)
    (m1 m2 : SSD300Obj)
    (h1 : m1 = callSSD300 (evalSSD300ClassDef v e0).1 Option.none)
    (h2 : m2 = callSSD300 (evalSSD300ClassDef v e0).1 Option.none) :
    m1.backboneAddr = m2.backboneAddr ∧
    readBackbone (evalSSD300ClassDef v e0).2 m1 = v ∧
    readBackbone (pyWrite e m1.backboneAddr w) m2 = w ∧
    (∀ a : Nat,
      (callSSD300 (evalSSD300ClassDef v e0).1 (some a)).backboneAddr = a) := by
  subst h1
  subst h2
  refine ⟨rfl, ?_, ?_, fun a => rfl⟩
  · simp [evalSSD300ClassDef, pyAlloc, readBackbone, callSSD300]
  · simp [pyWrite, readBackbone]

/-- Witness for C10 in the empty environment. -/
theorem C10_default_backbone_shared_witness :
    (callSSD300 (evalSSD300ClassDef 5 ⟨0, fun _ => 0⟩).1
        Option.none).backboneAddr =
      (callSSD300 (evalSSD300ClassDef 5 ⟨0, fun _ => 0⟩).1
        Option.none).backboneAddr ∧
    readBackbone (evalSSD300ClassDef 5 ⟨0, fun _ => 0⟩).2
      (callSSD300 (evalSSD300ClassDef 5 ⟨0, fun _ => 0⟩).1 Option.none) =
        5 ∧
    readBackbone
      (pyWrite ⟨1, fun _ => 0⟩
        (callSSD300 (evalSSD300ClassDef 5 ⟨0, fun _ => 0⟩).1
          Option.none).backboneAddr 9)
      (callSSD300 (evalSSD300ClassDef 5 ⟨0, fun _ => 0⟩).1 Option.none) =
        9 := by
  have h := C10_default_backbone_shared ⟨0, fun _ => 0⟩ ⟨1, fun _ => 0⟩ 5 9
    (callSSD300 (evalSSD300ClassDef 5 ⟨0, fun _ => 0⟩).1 Option.none)
    (callSSD300 (evalSSD300ClassDef 5 ⟨0, fun _ => 0⟩).1 Option.none)
    rfl rfl
  exact ⟨h.1, h.2.1, h.2.2.1⟩

/-- C2: for every sequence length, frame shape and class count (and any
weights argument and dropout rate), the LRMobileNetV2 stack maps a
per-sample input shape `(seq_length,) + frame_shape` to the per-sample
output shape `(classes,)`, hence a batch to `(batch, classes)`. -/
theorem C2_lrcnn_output_shape (seq classes batch : Nat) (frame : List Nat)
    (w : WeightsArg) (r : Rat) :
    runSequential (LRMobileNetV2 seq frame classes w r).layers
      (seq :: frame) = some [classes] ∧
    (runSequential (LRMobileNetV2 seq frame classes w r).layers
      (seq :: frame)).map (fun s => batch :: s) = some [batch, classes] ∧
    ((LRMobileNetV2 seq frame classes w r).layers.getLast?).map
      KLayer.kind = some (.dense classes "softmax") := by
  refine ⟨?_, ?_, rfl⟩
  · simp [LRMobileNetV2, runSequential, KLayer.outShape, mobileNetV2AvgShape]
  · simp [LRMobileNetV2, runSequential, KLayer.outShape, mobileNetV2AvgShape]

/-- C4: the layer stack of LRMobileNetV2 is the fixed ten-layer sequence
TimeDistributed MobileNetV2, LSTM(1024), Dropout, GRU(512), Dropout,
GRU(256), Dropout, GRU(128), Dropout, Dense(classes, softmax), for every
argument assignment. -/
theorem C4_lrcnn_fixed_architecture (seq classes : Nat) (frame : List Nat)
    (w : WeightsArg) (r : Rat) :
    (LRMobileNetV2 seq frame classes w r).layers.map KLayer.kind =
      [ .timeDistributedMobileNet
      , .lstm 1024 true
      , .dropoutLayer
      , .gru 512 true
      , .dropoutLayer
      , .gru 256 true
      , .dropoutLayer
      , .gru 128 false
      , .dropoutLayer
      , .dense classes "softmax" ] ∧
    (LRMobileNetV2 seq frame classes w r).layers.length = 10 :=
  ⟨rfl, rfl⟩

/-- C3 (failing input): with `weights=None` the construction does call
`model.load_weights(None)`, because the guard is only
`weights != 'imagenet'`; the docstring instead promises random
initialization with no load for `None`. -/
theorem C3_load_called_for_none_weights :
    (LRMobileNetV2 16 [224, 224, 3] 1000 WeightsArg.none (1 / 2)).loadCalled
      = some WeightsArg.none ∧
    (LRMobileNetV2 16 [224, 224, 3] 1000 (WeightsArg.str "imagenet")
      (1 / 2)).loadCalled = Option.none ∧
    (LRMobileNetV2 16 [224, 224, 3] 1000 (WeightsArg.str "model.h5")
      (1 / 2)).loadCalled = some (WeightsArg.str "model.h5") := by
  refine ⟨?_, ?_, ?_⟩ <;> simp [LRMobileNetV2]
